import Mathlib

/-!
# Verification of the MCP connection-pooled request router

Shallow embedding of `src/mcp/mcp_client_manager.py` (classes
`MCPConnectionPool` and `MCPClientManager`).

Modelling conventions:
* The pool keeps completely independent per-server structures
  (`self._pools[server_id]`, `self._active_connections[server_id]`, …, all
  `defaultdict`s), so the pool state is modelled per provider: `PoolState`
  is the slice of the pool belonging to one `server_id`.
* `fastmcp.Client` objects are opaque live channels; they are modelled by
  natural-number identities.  `Client(server_url)` allocates a fresh object,
  modelled by the counter `next_conn`.
* Python lists used as stacks (`list.append` / `list.pop`) are modelled as
  Lean lists whose head is the Python list's *end*: append is cons, pop
  takes the head.
* Python sets are modelled as lists mutated with `List.insert`
  (`set.add`: no-op when the element is present) and `List.erase`.
* Python dicts keyed by strings are association lists read with
  `List.lookup`; a dict write conses the new binding, which shadows any
  older binding for `List.lookup`.
* `datetime` values are abstract instants modelled as `Nat`; the TTL
  comparison `datetime.utcnow() - self._last_cache_update < self._cache_ttl`
  becomes `now - last_cache_update < ttl` on `Nat`.
* External I/O (the registry HTTP fetch, the provider client's
  connect+invoke round-trip, the health probe) is modelled by explicit
  outcome parameters; raised exceptions become `Except.error`/`none`.
-/

deriving instance DecidableEq for Except

/-- Per-provider slice of `MCPConnectionPool`'s state: the idle list
`self._pools[server_id]`, the active set `self._active_connections[server_id]`,
the stored `self._server_configs[server_id]`, and the allocator for fresh
`Client` objects. -/
structure PoolState where
  pool : List Nat
  active : List Nat
  server_config : Option (String × String)
  next_conn : Nat
deriving Repr, DecidableEq

/-- `MCPConnectionPool.__init__` default `max_connections_per_server`. -/
def max_connections_per_server_default : Nat := 5

/-- The empty per-provider pool slice (`defaultdict` initial state). -/
def PoolState.initial : PoolState :=
  { pool := [], active := [], server_config := none, next_conn := 0 }

/-- `MCPConnectionPool._create_connection`: builds a new `Client` object for
the URL/config; a fresh object, modelled by the `next_conn` allocator. -/
def create_connection (s : PoolState) : Nat × PoolState :=
  (s.next_conn, { s with next_conn := s.next_conn + 1 })

/-- `MCPConnectionPool.get_connection(server_id, server_url, config)`.
Stores the server config, then: pops an idle connection if one exists and
marks it active; else creates a new connection if the active set is under
`max_connections_per_server`; else raises
`Exception("Connection pool exhausted for server {server_id}")`.
Returns the raised-or-returned value together with the updated state (the
config store mutation survives the raise). -/
def get_connection (maxConn : Nat) (server_id server_url config : String)
    (s : PoolState) : Except String Nat × PoolState :=
  let s1 : PoolState := { s with server_config := some (server_url, config) }
  match s1.pool with
  | c :: rest =>
      (Except.ok c, { s1 with pool := rest, active := s1.active.insert c })
  | [] =>
      if s1.active.length < maxConn then
        let p := create_connection s1
        (Except.ok p.1, { p.2 with active := p.2.active.insert p.1 })
      else
        (Except.error ("Connection pool exhausted for server " ++ server_id),
         s1)

/-- `MCPConnectionPool.release_connection(server_id, client)`: if the client
is in the active set, remove it and append it to the idle list; otherwise do
nothing. -/
def release_connection (s : PoolState) (client : Nat) : PoolState :=
  if client ∈ s.active then
    { s with active := s.active.erase client, pool := client :: s.pool }
  else
    s

/-- `MCPConnectionPool.close_all_connections` restricted to one provider's
slice: clears both the idle list and the active set (the per-client
`close()` calls are commented out in the source). -/
def close_all_connections (s : PoolState) : PoolState :=
  { s with pool := [], active := [] }

/-- Outcome of the HTTP GET issued by `MCPConnectionPool.health_check`:
either a response with a status code and elapsed seconds, or a raised
network-level exception with its message. -/
inductive ProbeOutcome where
  | response (status_code : Nat) (elapsed : Nat)
  | network_error (message : String)
deriving Repr, DecidableEq

/-- The dict returned by `MCPConnectionPool.health_check`. -/
inductive HealthStatus where
  | healthy (response_time : Nat)
  | unhealthy (status_code : Nat)
  | error (message : String)
deriving Repr, DecidableEq

/-- The literal `timeout=5.0` passed to `client.get` in `health_check`. -/
def health_check_timeout : Nat := 5

/-- The request issued by `health_check`:
`client.get(f"{config[.url]}/health", timeout=5.0)` — target URL paired with
the timeout in seconds. -/
def health_probe (url : String) : String × Nat :=
  (url ++ "/health", health_check_timeout)

/-- `MCPConnectionPool.health_check(server_id)`: with the stored server
config absent, returns `{"status": "error", "message": "Server not
configured"}`; otherwise issues the probe and maps status 200 to `healthy`
with the response time, any other status to `unhealthy` with the code, and a
raised exception to `error` with its text. -/
def health_check (server_config : Option (String × String))
    (probe : ProbeOutcome) : HealthStatus :=
  match server_config with
  | none => HealthStatus.error "Server not configured"
  | some _ =>
      match probe with
      | ProbeOutcome.response status_code elapsed =>
          if status_code == 200 then HealthStatus.healthy elapsed
          else HealthStatus.unhealthy status_code
      | ProbeOutcome.network_error m => HealthStatus.error m

/-- `MCPRequest` pydantic model: tool name, parameters dict, optional
timeout (default 30). -/
structure MCPRequest where
  tool_name : String
  parameters : List (String × String) := []
  timeout : Option Nat := some 30
deriving Repr, DecidableEq

/-- `MCPResponse` pydantic model.  `metadata` is the response's dict of
string keys; values that can be `None` in Python (`server_name` from
`server_config.get("name")`) are `Option String`. -/
structure MCPResponse where
  success : Bool
  result : Option String := none
  error : Option String := none
  metadata : List (String × Option String) := []
deriving Repr, DecidableEq

/-- A server record as returned by the registry
(`GET {registry_url}/servers/{server_id}`): the fields `call_tool` reads
from it — `server_config["url"]`, `server_config.get("name")`,
`server_config.get("config", {})` (the config dict is kept opaque). -/
structure ServerData where
  url : String
  name : Option String
  config : String := ""
deriving Repr, DecidableEq

/-- One element of `self._user_servers[user_id]`: the fields
`_user_has_access` reads — `s["server_id"]` and `s.get("enabled", False)`. -/
structure UserServerEntry where
  server_id : String
  enabled : Bool := false
deriving Repr, DecidableEq

/-- `MCPClientManager` state threaded through the model: the (per-provider)
pool slice, the descriptor cache `self._server_cache`, the single global
timestamp `self._last_cache_update`, and `self._user_servers`. -/
structure ManagerState where
  pool : PoolState
  server_cache : List (String × ServerData)
  last_cache_update : Nat
  user_servers : List (String × List UserServerEntry)
deriving Repr, DecidableEq

/-- `self._cache_ttl = timedelta(minutes=5)`, in minutes. -/
def cache_ttl_minutes : Nat := 5

/-- The registry-fetch half of `MCPClientManager._get_server_config`: issue
`GET {registry_url}/servers/{server_id}`; on a 200 response (`fetch = some
d`) store the data in the cache, set `_last_cache_update = now` and return
the data; otherwise (`fetch = none`, a non-200 response) fall through to
`return None` leaving the cache untouched. -/
def fetch_from_registry (now : Nat) (fetch : Option ServerData)
    (server_id : String) (cache : List (String × ServerData))
    (last_update : Nat) :
    Option ServerData × List (String × ServerData) × Nat :=
  match fetch with
  | some d => (some d, (server_id, d) :: cache, now)
  | none => (none, cache, last_update)

/-- `MCPClientManager._get_server_config(server_id)`: if the id is cached
and `utcnow() - _last_cache_update < _cache_ttl`, return the cached value;
otherwise fetch from the registry.  Returns the result together with the
updated cache and timestamp. -/
def get_server_config (ttl now : Nat) (fetch : Option ServerData)
    (server_id : String) (cache : List (String × ServerData))
    (last_update : Nat) :
    Option ServerData × List (String × ServerData) × Nat :=
  match cache.lookup server_id with
  | some d =>
      if now - last_update < ttl then (some d, cache, last_update)
      else fetch_from_registry now fetch server_id cache last_update
  | none => fetch_from_registry now fetch server_id cache last_update

/-- `MCPClientManager._user_has_access(user_id, server_id)`:
`any(s["server_id"] == server_id and s.get("enabled", False) for s in
self._user_servers.get(user_id, []))`. -/
def user_has_access (user_servers : List (String × List UserServerEntry))
    (user_id server_id : String) : Bool :=
  ((user_servers.lookup user_id).getD []).any
    (fun s => s.server_id == server_id && s.enabled)

/-- `MCPClientManager._execute_tool(client, request)`: runs the client's
tool call (external I/O, modelled by `invoke`); a raised exception is
re-raised as `Exception("Tool execution failed: " + str(e))`. -/
def execute_tool (invoke : Nat → Except String String) (client : Nat) :
    Except String String :=
  match invoke client with
  | Except.ok r => Except.ok r
  | Except.error e => Except.error ("Tool execution failed: " ++ e)

/-- `MCPClientManager.call_tool(user_id, server_id, request)`.
The connect-if-needed step and the tool invocation inside the inner `try`
are the provider round-trip, modelled by `invoke`; `now` is the abstract
current instant (used for the cache TTL and for
`datetime.utcnow().isoformat()` in the success metadata, rendered
`toString now`); `fetch` is the registry response used on a cache
miss/expiry.  Returns the `MCPResponse`, the updated manager state, and the
number of times `release_connection` ran (the `finally` block), so the
scoped-acquisition discipline is visible in the result. -/
def call_tool (maxConn ttl now : Nat) (fetch : Option ServerData)
    (invoke : Nat → Except String String) (user_id server_id : String)
    (m : ManagerState) : MCPResponse × ManagerState × Nat :=
  let r := get_server_config ttl now fetch server_id m.server_cache
    m.last_cache_update
  let m1 : ManagerState :=
    { m with server_cache := r.2.1, last_cache_update := r.2.2 }
  match r.1 with
  | none =>
      ({ success := false,
         error := some ("Server " ++ server_id ++ " not found") }, m1, 0)
  | some sc =>
      if user_has_access m1.user_servers user_id server_id = false then
        ({ success := false,
           error := some ("User " ++ user_id ++
             " does not have access to server " ++ server_id) }, m1, 0)
      else
        match get_connection maxConn server_id sc.url sc.config m1.pool with
        | (Except.error e, p1) =>
            -- the raise propagates to the outer except-clause
            ({ success := false, error := some e,
               metadata := [("server_id", some server_id)] },
             { m1 with pool := p1 }, 0)
        | (Except.ok client, p1) =>
            match execute_tool invoke client with
            | Except.ok res =>
                -- finally: release, then return the success response
                let p2 := release_connection p1 client
                ({ success := true, result := some res,
                   metadata := [("server_id", some server_id),
                                ("server_name", sc.name),
                                ("execution_time", some (toString now))] },
                 { m1 with pool := p2 }, 1)
            | Except.error e =>
                -- finally: release, then the outer except-clause replies
                let p2 := release_connection p1 client
                ({ success := false, error := some e,
                   metadata := [("server_id", some server_id)] },
                 { m1 with pool := p2 }, 1)

/-- `MCPClientManager.batch_call_tools(user_id, requests)`: dispatches each
element through `call_tool` (`asyncio.gather(*tasks,
return_exceptions=True)`, modelled by the per-element outcome function
`call`, whose `Except.error` case is a task that raised) and converts each
captured exception into `MCPResponse(success=False, error=str(result))` at
the same position. -/
def batch_call_tools (call : String × MCPRequest → Except String MCPResponse)
    (requests : List (String × MCPRequest)) : List MCPResponse :=
  (requests.map call).map (fun r =>
    match r with
    | Except.ok resp => resp
    | Except.error e => { success := false, error := some e })

/-! ## Pool invariants -/

/-- Structural invariant of a per-provider pool slice: the idle list has no
duplicates, the active set (represented as a list) has no duplicates, the
two are disjoint, and every connection identity was allocated by
`create_connection` (is below `next_conn`). -/
def PoolInv (s : PoolState) : Prop :=
  s.pool.Nodup ∧ s.active.Nodup ∧
  (∀ c ∈ s.pool, c ∉ s.active) ∧
  (∀ c ∈ s.pool, c < s.next_conn) ∧
  (∀ c ∈ s.active, c < s.next_conn)

instance (s : PoolState) : Decidable (PoolInv s) := by
  unfold PoolInv; infer_instance

/-- Size invariant: the total number of connections (active plus idle) for
one provider never exceeds the configured maximum. -/
def PoolSizeInv (maxConn : Nat) (s : PoolState) : Prop :=
  s.active.length + s.pool.length ≤ maxConn

instance (maxConn : Nat) (s : PoolState) : Decidable (PoolSizeInv maxConn s) := by
  unfold PoolSizeInv; infer_instance

lemma get_connection_pop (maxConn : Nat) (sid url cfg : String)
    (s : PoolState) (c : Nat) (rest : List Nat)
    (h : s.pool = c :: rest) (hc : c ∉ s.active) :
    get_connection maxConn sid url cfg s =
      (Except.ok c,
       { pool := rest, active := c :: s.active,
         server_config := some (url, cfg), next_conn := s.next_conn }) := by
  simp [get_connection, h, List.insert_of_not_mem hc]

lemma get_connection_create (maxConn : Nat) (sid url cfg : String)
    (s : PoolState) (h : s.pool = []) (hlt : s.active.length < maxConn)
    (hn : s.next_conn ∉ s.active) :
    get_connection maxConn sid url cfg s =
      (Except.ok s.next_conn,
       { pool := [], active := s.next_conn :: s.active,
         server_config := some (url, cfg), next_conn := s.next_conn + 1 }) := by
  simp [get_connection, h, hlt, create_connection, List.insert_of_not_mem hn]

lemma get_connection_exhausted (maxConn : Nat) (sid url cfg : String)
    (s : PoolState) (h : s.pool = []) (hge : ¬ s.active.length < maxConn) :
    get_connection maxConn sid url cfg s =
      (Except.error ("Connection pool exhausted for server " ++ sid),
       { s with server_config := some (url, cfg) }) := by
  simp [get_connection, h, hge]

lemma next_conn_not_mem_active (s : PoolState) (hI : PoolInv s) :
    s.next_conn ∉ s.active := by
  intro hmem
  exact absurd (hI.2.2.2.2 _ hmem) (Nat.lt_irrefl _)

lemma next_conn_not_mem_pool (s : PoolState) (hI : PoolInv s) :
    s.next_conn ∉ s.pool := by
  intro hmem
  exact absurd (hI.2.2.2.1 _ hmem) (Nat.lt_irrefl _)

lemma poolInv_get_connection (maxConn : Nat) (sid url cfg : String)
    (s : PoolState) (hI : PoolInv s) :
    PoolInv (get_connection maxConn sid url cfg s).2 := by
  obtain ⟨hp, ha, hd, hbp, hba⟩ := hI
  match hpool : s.pool with
  | c :: rest =>
      have hc : c ∉ s.active := hd c (by simp [hpool])
      rw [get_connection_pop maxConn sid url cfg s c rest hpool hc]
      refine ⟨?_, ?_, ?_, ?_, ?_⟩
      · exact (by rw [hpool] at hp; exact hp.of_cons)
      · exact List.nodup_cons.mpr ⟨hc, ha⟩
      · intro x hx
        rw [hpool] at hp hd
        simp only [List.mem_cons, not_or]
        exact ⟨fun hxc => (List.nodup_cons.mp hp).1 (hxc ▸ hx),
               hd x (List.mem_cons_of_mem _ hx)⟩
      · intro x hx
        exact hbp x (by rw [hpool]; exact List.mem_cons_of_mem _ hx)
      · intro x hx
        rcases List.mem_cons.mp hx with hxc | hxa
        · exact hxc ▸ hbp c (by simp [hpool])
        · exact hba x hxa
  | [] =>
      by_cases hlt : s.active.length < maxConn
      · have hn : s.next_conn ∉ s.active :=
          next_conn_not_mem_active s ⟨hp, ha, hd, hbp, hba⟩
        rw [get_connection_create maxConn sid url cfg s hpool hlt hn]
        refine ⟨List.nodup_nil, List.nodup_cons.mpr ⟨hn, ha⟩, ?_, ?_, ?_⟩
        · intro x hx; simp at hx
        · intro x hx; simp at hx
        · intro x hx
          rcases List.mem_cons.mp hx with hxc | hxa
          · exact hxc ▸ Nat.lt_succ_self _
          · exact Nat.lt_succ_of_lt (hba x hxa)
      · rw [get_connection_exhausted maxConn sid url cfg s hpool hlt]
        exact ⟨hp, ha, hd, hbp, hba⟩

lemma poolInv_release_connection (s : PoolState) (c : Nat) (hI : PoolInv s) :
    PoolInv (release_connection s c) := by
  obtain ⟨hp, ha, hd, hbp, hba⟩ := hI
  by_cases hc : c ∈ s.active
  · simp only [release_connection, if_pos hc]
    refine ⟨?_, ha.erase c, ?_, ?_, ?_⟩
    · exact List.nodup_cons.mpr ⟨fun hcp => hd c hcp hc, hp⟩
    · intro x hx
      rcases List.mem_cons.mp hx with hxc | hxp
      · subst hxc
        intro hmem
        exact ((ha.mem_erase_iff).mp hmem).1 rfl
      · intro hmem
        exact hd x hxp (List.mem_of_mem_erase hmem)
    · intro x hx
      rcases List.mem_cons.mp hx with hxc | hxp
      · exact hxc ▸ hba c hc
      · exact hbp x hxp
    · intro x hx
      exact hba x (List.mem_of_mem_erase hx)
  · simp only [release_connection, if_neg hc]
    exact ⟨hp, ha, hd, hbp, hba⟩

lemma release_connection_not_active (s : PoolState) (c : Nat)
    (hc : c ∉ s.active) : release_connection s c = s := by
  simp [release_connection, hc]

lemma poolInv_close_all (s : PoolState) :
    PoolInv (close_all_connections s) := by
  refine ⟨List.nodup_nil, List.nodup_nil, ?_, ?_, ?_⟩ <;>
    intro x hx <;> simp [close_all_connections] at hx

lemma poolSizeInv_get_connection (maxConn : Nat) (sid url cfg : String)
    (s : PoolState) (hS : PoolSizeInv maxConn s) :
    PoolSizeInv maxConn (get_connection maxConn sid url cfg s).2 := by
  unfold PoolSizeInv at hS ⊢
  match hpool : s.pool with
  | c :: rest =>
      by_cases hc : c ∈ s.active
      · simp [get_connection, hpool, List.insert_of_mem hc]
        rw [hpool] at hS
        simp at hS
        omega
      · rw [get_connection_pop maxConn sid url cfg s c rest hpool hc]
        rw [hpool] at hS
        simp at hS ⊢
        omega
  | [] =>
      by_cases hlt : s.active.length < maxConn
      · by_cases hn : s.next_conn ∈ s.active
        · simp [get_connection, hpool, hlt, create_connection,
            List.insert_of_mem hn]
          omega
        · rw [get_connection_create maxConn sid url cfg s hpool hlt hn]
          simp
          omega
      · rw [get_connection_exhausted maxConn sid url cfg s hpool hlt]
        show s.active.length + s.pool.length ≤ maxConn
        exact hS

lemma poolSizeInv_release_connection (maxConn : Nat) (s : PoolState)
    (c : Nat) (hS : PoolSizeInv maxConn s) :
    PoolSizeInv maxConn (release_connection s c) := by
  unfold PoolSizeInv at hS ⊢
  by_cases hc : c ∈ s.active
  · simp only [release_connection, if_pos hc]
    have hlen := List.length_erase_of_mem hc
    have hpos : 0 < s.active.length := List.length_pos.mpr
      (fun h => by simp [h] at hc)
    simp [hlen]
    omega
  · simp only [release_connection, if_neg hc]
    exact hS

lemma poolSizeInv_close_all (maxConn : Nat) (s : PoolState) :
    PoolSizeInv maxConn (close_all_connections s) := by
  unfold PoolSizeInv
  simp [close_all_connections]

/-! ## Claim theorems: connection pool -/

/-- C1: for a provider pool bounded by `maxConn` (default 5), `get_connection`
returns an idle connection when one exists; otherwise, when fewer than
`maxConn` connections are active, it creates a fresh one; otherwise it fails
immediately with the pool-exhausted error — so at most `maxConn` connections
are ever concurrently active for the provider (the size bound is an
invariant preserved by acquire, release and close), and an acquire arriving
with `maxConn` connections active fails. -/
theorem get_connection_spec (maxConn : Nat) (sid url cfg : String)
    (s : PoolState) (hI : PoolInv s) (hS : PoolSizeInv maxConn s) :
    max_connections_per_server_default = 5 ∧
    (∀ c rest, s.pool = c :: rest →
       (get_connection maxConn sid url cfg s).1 = Except.ok c ∧
       (get_connection maxConn sid url cfg s).2.active = c :: s.active) ∧
    (s.pool = [] → s.active.length < maxConn →
       (get_connection maxConn sid url cfg s).1 = Except.ok s.next_conn ∧
       s.next_conn ∉ s.active ∧ s.next_conn ∉ s.pool) ∧
    (s.active.length = maxConn →
       (get_connection maxConn sid url cfg s).1 =
         Except.error ("Connection pool exhausted for server " ++ sid)) ∧
    (get_connection maxConn sid url cfg s).2.active.length ≤ maxConn ∧
    PoolSizeInv maxConn (get_connection maxConn sid url cfg s).2 ∧
    (∀ c, PoolSizeInv maxConn (release_connection s c)) ∧
    PoolSizeInv maxConn (close_all_connections s) := by
  have hSize := poolSizeInv_get_connection maxConn sid url cfg s hS
  refine ⟨rfl, ?_, ?_, ?_, ?_, hSize, ?_, ?_⟩
  · intro c rest hpool
    have hc : c ∉ s.active := hI.2.2.1 c (by simp [hpool])
    rw [get_connection_pop maxConn sid url cfg s c rest hpool hc]
    exact ⟨rfl, rfl⟩
  · intro hpool hlt
    refine ⟨?_, next_conn_not_mem_active s hI, next_conn_not_mem_pool s hI⟩
    rw [get_connection_create maxConn sid url cfg s hpool hlt
      (next_conn_not_mem_active s hI)]
  · intro hfull
    have hpool : s.pool = [] := by
      have : s.pool.length = 0 := by
        unfold PoolSizeInv at hS
        omega
      exact List.length_eq_zero.mp this
    rw [get_connection_exhausted maxConn sid url cfg s hpool (by omega)]
  · exact Nat.le_trans (Nat.le_add_right _ _) hSize
  · intro c
    exact poolSizeInv_release_connection maxConn s c hS
  · exact poolSizeInv_close_all maxConn s

/-- C1 witness: with the default bound 5 and five active connections, the
sixth concurrent acquire fails immediately with the pool-exhausted error. -/
theorem get_connection_spec_witness :
    PoolInv { pool := [], active := [0, 1, 2, 3, 4], server_config := none,
              next_conn := 5 } ∧
    PoolSizeInv 5 { pool := [], active := [0, 1, 2, 3, 4],
                    server_config := none, next_conn := 5 } ∧
    (get_connection 5 "srv" "http" ""
       { pool := [], active := [0, 1, 2, 3, 4], server_config := none,
         next_conn := 5 }).1 =
      Except.error ("Connection pool exhausted for server " ++ "srv") :=
  ⟨by decide, by decide,
   (get_connection_spec 5 "srv" "http" "" _ (by decide) (by decide)).2.2.2.1
     (by decide)⟩

/-- C10: the idle list and the active set of a provider's pool slice are
disjoint and duplicate-free, and every pool operation — acquire, release
(releasing a non-active connection leaves the state unchanged), and
close-all — preserves this invariant. -/
theorem pool_invariant_preserved (maxConn : Nat) (sid url cfg : String)
    (s : PoolState) (c : Nat) (hI : PoolInv s) :
    PoolInv (get_connection maxConn sid url cfg s).2 ∧
    PoolInv (release_connection s c) ∧
    (c ∉ s.active → release_connection s c = s) ∧
    PoolInv (close_all_connections s) :=
  ⟨poolInv_get_connection maxConn sid url cfg s hI,
   poolInv_release_connection s c hI,
   release_connection_not_active s c,
   poolInv_close_all s⟩

/-- C10 witness: a concrete pool slice with idle `[2]` and active `[0, 1]`
satisfies the invariant; releasing the non-active connection `7` leaves the
state unchanged and the invariant holds after each operation. -/
theorem pool_invariant_preserved_witness :
    PoolInv { pool := [2], active := [0, 1], server_config := none,
              next_conn := 3 } ∧
    (7 : Nat) ∉ ({ pool := [2], active := [0, 1], server_config := none,
                   next_conn := 3 } : PoolState).active ∧
    PoolInv (release_connection
      { pool := [2], active := [0, 1], server_config := none,
        next_conn := 3 } 7) ∧
    release_connection
      { pool := [2], active := [0, 1], server_config := none,
        next_conn := 3 } 7 =
      { pool := [2], active := [0, 1], server_config := none,
        next_conn := 3 } :=
  ⟨by decide, by decide,
   (pool_invariant_preserved 5 "srv" "http" "" _ 7 (by decide)).2.1,
   (pool_invariant_preserved 5 "srv" "http" "" _ 7 (by decide)).2.2.1
     (by decide)⟩

/-! ## Characterization of the Router's call paths -/

lemma get_connection_error_active (maxConn : Nat) (sid url cfg : String)
    (s : PoolState) (e : String) (p1 : PoolState)
    (h : get_connection maxConn sid url cfg s = (Except.error e, p1)) :
    p1.active = s.active := by
  match hpool : s.pool with
  | c :: rest =>
      simp [get_connection, hpool] at h
  | [] =>
      by_cases hlt : s.active.length < maxConn
      · simp [get_connection, hpool, hlt, create_connection] at h
      · rw [get_connection_exhausted maxConn sid url cfg s hpool hlt] at h
        injection h with h1 h2
        rw [← h2]

lemma get_connection_ok_release (maxConn : Nat) (sid url cfg : String)
    (s : PoolState) (c : Nat) (p1 : PoolState) (hI : PoolInv s)
    (h : get_connection maxConn sid url cfg s = (Except.ok c, p1)) :
    (release_connection p1 c).active.length = s.active.length ∧
    (release_connection p1 c).pool = c :: p1.pool := by
  match hpool : s.pool with
  | d :: rest =>
      have hd : d ∉ s.active := hI.2.2.1 d (by simp [hpool])
      rw [get_connection_pop maxConn sid url cfg s d rest hpool hd] at h
      injection h with h1 h2
      injection h1 with h1
      subst h1
      subst h2
      exact ⟨by simp [release_connection, List.erase_cons_head],
             by simp [release_connection, List.erase_cons_head]⟩
  | [] =>
      by_cases hlt : s.active.length < maxConn
      · have hn := next_conn_not_mem_active s hI
        rw [get_connection_create maxConn sid url cfg s hpool hlt hn] at h
        injection h with h1 h2
        injection h1 with h1
        subst h1
        subst h2
        exact ⟨by simp [release_connection, List.erase_cons_head],
               by simp [release_connection, List.erase_cons_head]⟩
      · rw [get_connection_exhausted maxConn sid url cfg s hpool hlt] at h
        injection h with h1 h2
        exact absurd h1 (by simp)

lemma call_tool_not_found (maxConn ttl now : Nat) (fetch : Option ServerData)
    (invoke : Nat → Except String String) (user_id server_id : String)
    (m : ManagerState) (c2 : List (String × ServerData)) (l2 : Nat)
    (hg : get_server_config ttl now fetch server_id m.server_cache
        m.last_cache_update = (none, c2, l2)) :
    call_tool maxConn ttl now fetch invoke user_id server_id m =
      ({ success := false,
         error := some ("Server " ++ server_id ++ " not found") },
       { m with server_cache := c2, last_cache_update := l2 }, 0) := by
  simp [call_tool, hg]

lemma call_tool_denied (maxConn ttl now : Nat) (fetch : Option ServerData)
    (invoke : Nat → Except String String) (user_id server_id : String)
    (m : ManagerState) (sc : ServerData) (c2 : List (String × ServerData))
    (l2 : Nat)
    (hg : get_server_config ttl now fetch server_id m.server_cache
        m.last_cache_update = (some sc, c2, l2))
    (hacc : user_has_access m.user_servers user_id server_id = false) :
    call_tool maxConn ttl now fetch invoke user_id server_id m =
      ({ success := false,
         error := some ("User " ++ user_id ++
           " does not have access to server " ++ server_id) },
       { m with server_cache := c2, last_cache_update := l2 }, 0) := by
  simp [call_tool, hg, hacc]

lemma call_tool_pool_error (maxConn ttl now : Nat)
    (fetch : Option ServerData) (invoke : Nat → Except String String)
    (user_id server_id : String) (m : ManagerState) (sc : ServerData)
    (c2 : List (String × ServerData)) (l2 : Nat) (e : String)
    (p1 : PoolState)
    (hg : get_server_config ttl now fetch server_id m.server_cache
        m.last_cache_update = (some sc, c2, l2))
    (hacc : user_has_access m.user_servers user_id server_id = true)
    (hgc : get_connection maxConn server_id sc.url sc.config m.pool =
        (Except.error e, p1)) :
    call_tool maxConn ttl now fetch invoke user_id server_id m =
      ({ success := false, error := some e,
         metadata := [("server_id", some server_id)] },
       { m with pool := p1, server_cache := c2, last_cache_update := l2 },
       0) := by
  simp [call_tool, hg, hacc, hgc]

lemma call_tool_invoke_ok (maxConn ttl now : Nat) (fetch : Option ServerData)
    (invoke : Nat → Except String String) (user_id server_id : String)
    (m : ManagerState) (sc : ServerData) (c2 : List (String × ServerData))
    (l2 : Nat) (c : Nat) (p1 : PoolState) (res : String)
    (hg : get_server_config ttl now fetch server_id m.server_cache
        m.last_cache_update = (some sc, c2, l2))
    (hacc : user_has_access m.user_servers user_id server_id = true)
    (hgc : get_connection maxConn server_id sc.url sc.config m.pool =
        (Except.ok c, p1))
    (hex : execute_tool invoke c = Except.ok res) :
    call_tool maxConn ttl now fetch invoke user_id server_id m =
      ({ success := true, result := some res,
         metadata := [("server_id", some server_id),
                      ("server_name", sc.name),
                      ("execution_time", some (toString now))] },
       { m with pool := release_connection p1 c, server_cache := c2,
                last_cache_update := l2 }, 1) := by
  simp [call_tool, hg, hacc, hgc, hex]

lemma call_tool_invoke_error (maxConn ttl now : Nat)
    (fetch : Option ServerData) (invoke : Nat → Except String String)
    (user_id server_id : String) (m : ManagerState) (sc : ServerData)
    (c2 : List (String × ServerData)) (l2 : Nat) (c : Nat) (p1 : PoolState)
    (e : String)
    (hg : get_server_config ttl now fetch server_id m.server_cache
        m.last_cache_update = (some sc, c2, l2))
    (hacc : user_has_access m.user_servers user_id server_id = true)
    (hgc : get_connection maxConn server_id sc.url sc.config m.pool =
        (Except.ok c, p1))
    (hex : execute_tool invoke c = Except.error e) :
    call_tool maxConn ttl now fetch invoke user_id server_id m =
      ({ success := false, error := some e,
         metadata := [("server_id", some server_id)] },
       { m with pool := release_connection p1 c, server_cache := c2,
                last_cache_update := l2 }, 1) := by
  simp [call_tool, hg, hacc, hgc, hex]

/-! ## Claim theorems: the Router's call -/

/-- Observation on the source model: does this `call_tool` run reach a
successful pool acquisition?  (Config resolved, access granted, and the
pool not exhausted.) -/
def call_acquires (maxConn ttl now : Nat) (fetch : Option ServerData)
    (user_id server_id : String) (m : ManagerState) : Bool :=
  match (get_server_config ttl now fetch server_id m.server_cache
      m.last_cache_update).1 with
  | none => false
  | some sc =>
      user_has_access m.user_servers user_id server_id &&
      (match (get_connection maxConn server_id sc.url sc.config m.pool).1 with
       | Except.ok _ => true
       | Except.error _ => false)

/-- C2: every `call_tool` run restores the pool's active-connection count
for the provider to its pre-call value on every exit path (config miss,
access denial, pool exhaustion, invocation success, invocation error), and
the `finally`-guarded `release_connection` runs exactly once when a
connection was acquired and zero times otherwise. -/
theorem call_tool_release_frame (maxConn ttl now : Nat)
    (fetch : Option ServerData) (invoke : Nat → Except String String)
    (user_id server_id : String) (m : ManagerState) (hI : PoolInv m.pool) :
    (call_tool maxConn ttl now fetch invoke user_id server_id
        m).2.1.pool.active.length = m.pool.active.length ∧
    (call_tool maxConn ttl now fetch invoke user_id server_id m).2.2 =
      (if call_acquires maxConn ttl now fetch user_id server_id m then 1
       else 0) := by
  obtain ⟨o, c2, l2, hg⟩ : ∃ o c2 l2,
      get_server_config ttl now fetch server_id m.server_cache
        m.last_cache_update = (o, c2, l2) := ⟨_, _, _, rfl⟩
  have hg1 : (get_server_config ttl now fetch server_id m.server_cache
      m.last_cache_update).1 = o := by rw [hg]
  rcases o with _ | sc
  · rw [call_tool_not_found maxConn ttl now fetch invoke user_id server_id
      m c2 l2 hg]
    simp [call_acquires, hg1]
  · by_cases hacc : user_has_access m.user_servers user_id server_id
    · obtain ⟨r, p1, hgc⟩ : ∃ r p1,
          get_connection maxConn server_id sc.url sc.config m.pool =
            (r, p1) := ⟨_, _, rfl⟩
      have hgc1 : (get_connection maxConn server_id sc.url sc.config
          m.pool).1 = r := by rw [hgc]
      rcases r with e | c
      · rw [call_tool_pool_error maxConn ttl now fetch invoke user_id
          server_id m sc c2 l2 e p1 hg hacc hgc]
        have hact := get_connection_error_active maxConn server_id sc.url
          sc.config m.pool e p1 hgc
        simp [call_acquires, hg1, hgc1, hact]
      · have hrel := get_connection_ok_release maxConn server_id sc.url
          sc.config m.pool c p1 hI hgc
        rcases hex : execute_tool invoke c with e | res
        · rw [call_tool_invoke_error maxConn ttl now fetch invoke user_id
            server_id m sc c2 l2 c p1 e hg hacc hgc hex]
          simp [call_acquires, hg1, hgc1, hacc, hrel.1]
        · rw [call_tool_invoke_ok maxConn ttl now fetch invoke user_id
            server_id m sc c2 l2 c p1 res hg hacc hgc hex]
          simp [call_acquires, hg1, hgc1, hacc, hrel.1]
    · rw [call_tool_denied maxConn ttl now fetch invoke user_id server_id
        m sc c2 l2 hg (by simpa using hacc)]
      simp [call_acquires, hg1, hacc]

/-- Concrete registry record used by the witnesses: provider `"a"` at URL
`"u"` named `"A"`. -/
def srvA : ServerData := { url := "u", name := some "A" }

/-- Concrete manager state used by the witnesses: empty pool, provider
`"a"` cached at instant 0, user `"alice"` with provider `"a"` enabled. -/
def mgrA : ManagerState :=
  { pool := PoolState.initial,
    server_cache := [("a", srvA)],
    last_cache_update := 0,
    user_servers := [("alice", [{ server_id := "a", enabled := true }])] }

/-- C2 witness: on a concrete manager state, a successful invocation and a
failing invocation both restore the provider's active count, each with
exactly one release. -/
theorem call_tool_release_frame_witness :
    PoolInv mgrA.pool ∧
    call_acquires 5 5 1 none "alice" "a" mgrA = true ∧
    (call_tool 5 5 1 none (fun _ => Except.ok "res") "alice" "a"
        mgrA).2.1.pool.active.length = 0 ∧
    (call_tool 5 5 1 none (fun _ => Except.error "boom") "alice" "a"
        mgrA).2.2 = 1 := by
  refine ⟨by decide, by decide, ?_, ?_⟩
  · exact (call_tool_release_frame 5 5 1 none (fun _ => Except.ok "res")
      "alice" "a" mgrA (by decide)).1
  · rw [(call_tool_release_frame 5 5 1 none (fun _ => Except.error "boom")
      "alice" "a" mgrA (by decide)).2]
    decide

/-! ## Claim theorems: batch dispatch and access control -/

/-- C3: `batch_call_tools` returns as many responses as requests, in
matching order: the i-th response is determined by the i-th request's own
outcome alone — its fault (a captured exception) is converted to a
failure-shaped response at that same position and does not abort or alter
the other elements. -/
theorem batch_call_tools_spec
    (call : String × MCPRequest → Except String MCPResponse)
    (requests : List (String × MCPRequest)) :
    (batch_call_tools call requests).length = requests.length ∧
    (∀ i, ∀ h : i < requests.length,
       (batch_call_tools call requests)[i]? =
         some (match call requests[i] with
               | Except.ok resp => resp
               | Except.error e => { success := false, error := some e })) := by
  constructor
  · simp [batch_call_tools]
  · intro i h
    simp [batch_call_tools, List.getElem?_map, List.getElem?_eq_getElem h]

/-- Per-element outcome function used by the C3 witness: provider `"b"` is
unreachable (its task raises), every other provider succeeds. -/
def callB : String × MCPRequest → Except String MCPResponse :=
  fun p =>
    if p.1 == "b" then Except.error "unreachable"
    else Except.ok { success := true, result := some "ok" }

/-- Request list used by the C3 witness. -/
def reqsB : List (String × MCPRequest) :=
  [("a", { tool_name := "t" }), ("b", { tool_name := "t" }),
   ("c", { tool_name := "t" })]

/-- C3 witness: with `[A, B, C]` where B's provider is unreachable, the
batch returns `[success, failure, success]` in that exact order, and the
middle element is the converted fault. -/
theorem batch_call_tools_spec_witness :
    (1 < reqsB.length) ∧
    batch_call_tools callB reqsB =
      [{ success := true, result := some "ok" },
       { success := false, error := some "unreachable" },
       { success := true, result := some "ok" }] ∧
    (batch_call_tools callB reqsB)[1]? =
      some { success := false, error := some "unreachable" } := by
  refine ⟨by decide, by decide, ?_⟩
  rw [(batch_call_tools_spec callB reqsB).2 1 (by decide)]
  decide

lemma user_has_access_no_list (user_servers : List (String × List UserServerEntry))
    (user_id server_id : String)
    (hu : user_servers.lookup user_id = none) :
    user_has_access user_servers user_id server_id = false := by
  simp [user_has_access, hu]

/-- C4: for a user with no loaded enablement list (or one that does not
enable the provider), the access check yields `false` rather than erroring,
and — provided the provider's descriptor resolves — `call_tool` returns the
access-denied failure response with the connection pool left completely
untouched (in particular the active count is unchanged), with zero
releases. -/
theorem access_denied_no_pool (maxConn ttl now : Nat)
    (fetch : Option ServerData) (invoke : Nat → Except String String)
    (user_id server_id : String) (m : ManagerState) (sc : ServerData)
    (c2 : List (String × ServerData)) (l2 : Nat)
    (hu : m.user_servers.lookup user_id = none ∨
      user_has_access m.user_servers user_id server_id = false)
    (hg : get_server_config ttl now fetch server_id m.server_cache
        m.last_cache_update = (some sc, c2, l2)) :
    user_has_access m.user_servers user_id server_id = false ∧
    (call_tool maxConn ttl now fetch invoke user_id server_id m).1 =
      { success := false,
        error := some ("User " ++ user_id ++
          " does not have access to server " ++ server_id) } ∧
    (call_tool maxConn ttl now fetch invoke user_id server_id m).2.1.pool =
      m.pool ∧
    (call_tool maxConn ttl now fetch invoke user_id server_id m).2.1.pool.active.length =
      m.pool.active.length ∧
    (call_tool maxConn ttl now fetch invoke user_id server_id m).2.2 = 0 := by
  have hacc : user_has_access m.user_servers user_id server_id = false := by
    rcases hu with hu | hu
    · exact user_has_access_no_list m.user_servers user_id server_id hu
    · exact hu
  rw [call_tool_denied maxConn ttl now fetch invoke user_id server_id m sc
    c2 l2 hg hacc]
  exact ⟨hacc, rfl, rfl, rfl, rfl⟩

/-- C4 witness: user `"bob"` has no enablement list in `mgrA`; the call is
denied and the pool is untouched. -/
theorem access_denied_no_pool_witness :
    mgrA.user_servers.lookup "bob" = none ∧
    get_server_config 5 1 none "a" mgrA.server_cache
      mgrA.last_cache_update = (some srvA, [("a", srvA)], 0) ∧
    user_has_access mgrA.user_servers "bob" "a" = false ∧
    (call_tool 5 5 1 none (fun _ => Except.ok "res") "bob" "a" mgrA).1 =
      { success := false,
        error := some ("User " ++ "bob" ++
          " does not have access to server " ++ "a") } ∧
    (call_tool 5 5 1 none (fun _ => Except.ok "res") "bob" "a"
        mgrA).2.1.pool = mgrA.pool := by
  have h := access_denied_no_pool 5 5 1 none (fun _ => Except.ok "res")
    "bob" "a" mgrA srvA [("a", srvA)] 0 (Or.inl (by decide)) (by decide)
  exact ⟨by decide, by decide, h.1, h.2.1, h.2.2.1⟩

/-! ## Claim theorems: descriptor cache -/

/-- Second concrete registry record, for the cache trace: provider `"b"`. -/
def srvB : ServerData := { url := "v", name := some "B" }

/-- C5 counterexample: a stale cached value exists for `"a"` (the entry is
past TTL) and the registry query fails, yet `_get_server_config` returns
`none` — it does not fall back to the stale cached value as the claim
states. -/
theorem get_server_config_stale_cex :
    List.lookup "a" [("a", srvA)] = some srvA ∧
    ¬ ((5 : Nat) - 0 < 5) ∧
    get_server_config 5 5 none "a" [("a", srvA)] 0 =
      (none, [("a", srvA)], 0) := by
  decide

/-- C5 (amended): on a cache miss or an entry past TTL, the registry store
is queried; when that query fails, `_get_server_config` returns `none`
(NotFound) and leaves the cache and timestamp unchanged — even when a stale
cached value exists, no graceful degradation to it takes place. -/
theorem get_server_config_store_failure (ttl now lu : Nat) (sid : String)
    (cache : List (String × ServerData))
    (h : cache.lookup sid = none ∨ ¬ (now - lu < ttl)) :
    get_server_config ttl now none sid cache lu = (none, cache, lu) := by
  rcases hl : cache.lookup sid with _ | d
  · simp [get_server_config, hl, fetch_from_registry]
  · have hstale : ¬ (now - lu < ttl) := by
      rcases h with h | h
      · rw [hl] at h; cases h
      · exact h
    simp [get_server_config, hl, hstale, fetch_from_registry]

/-- C5 witness: the store-failure path at a concrete stale entry returns
`none` with the cache unchanged. -/
theorem get_server_config_store_failure_witness :
    (List.lookup "a" [("a", srvA)] = none ∨ ¬ ((5 : Nat) - 0 < 5)) ∧
    get_server_config 5 5 none "a" [("a", srvA)] 0 =
      (none, [("a", srvA)], 0) :=
  ⟨Or.inr (by decide),
   get_server_config_store_failure 5 5 0 "a" [("a", srvA)]
     (Or.inr (by decide))⟩

/-- C6 counterexample: with TTL 5, provider `"a"` is fetched at instant 0
and provider `"b"` at instant 4 (which resets the single global
`_last_cache_update`).  At instant 8 the entry for `"a"` is 8 > 5 time
units old, yet `get` serves it from the cache without any re-fetch (the
fetch outcome is `none`, so a re-fetch could not have produced
`some srvA`) — staleness is not measured from the entry's own fetch
time. -/
theorem get_server_config_global_ttl_cex :
    get_server_config 5 0 (some srvA) "a" [] 0 =
      (some srvA, [("a", srvA)], 0) ∧
    get_server_config 5 4 (some srvB) "b" [("a", srvA)] 0 =
      (some srvB, [("b", srvB), ("a", srvA)], 4) ∧
    ¬ ((8 : Nat) - 0 < 5) ∧
    get_server_config 5 8 none "a" [("b", srvB), ("a", srvA)] 4 =
      (some srvA, [("b", srvB), ("a", srvA)], 4) := by
  decide

/-- C6 (amended): staleness is judged against the cache's single global
last-update instant — the time of the most recent successful fetch for
*any* provider — not against each entry's own fetch time.  A cached entry
is served without re-fetch exactly when `now - last_update < ttl`, and a
`get` outside that window goes to the registry (so an entry can be served
more than one TTL after its own fetch when other providers were fetched in
between). -/
theorem get_server_config_ttl_amended (ttl now lu : Nat)
    (fetch : Option ServerData) (sid : String)
    (cache : List (String × ServerData)) (d : ServerData)
    (hc : cache.lookup sid = some d) :
    (now - lu < ttl →
       get_server_config ttl now fetch sid cache lu = (some d, cache, lu)) ∧
    (¬ (now - lu < ttl) →
       get_server_config ttl now fetch sid cache lu =
         fetch_from_registry now fetch sid cache lu) := by
  constructor
  · intro hfresh
    simp [get_server_config, hc, hfresh]
  · intro hstale
    simp [get_server_config, hc, hstale]

/-- C6 witness: at instant 8 with global last update 4, the entry for `"a"`
(fetched at 0) is inside the global window and is served from the cache. -/
theorem get_server_config_ttl_amended_witness :
    List.lookup "a" [("b", srvB), ("a", srvA)] = some srvA ∧
    ((8 : Nat) - 4 < 5) ∧
    get_server_config 5 8 none "a" [("b", srvB), ("a", srvA)] 4 =
      (some srvA, [("b", srvB), ("a", srvA)], 4) :=
  ⟨by decide, by decide,
   (get_server_config_ttl_amended 5 8 4 none "a" [("b", srvB), ("a", srvA)]
     srvA (by decide)).1 (by decide)⟩

/-! ## Claim theorems: response metadata, broken connections, health -/

/-- C7 counterexample: on a concrete call, the success response carries
metadata keys `server_id`, `server_name`, `execution_time`, but the
invocation-error response carries only `server_id` — the metadata shape is
not the same on both outcomes. -/
theorem call_tool_metadata_cex :
    (call_tool 5 5 1 none (fun _ => Except.ok "r") "alice" "a"
        mgrA).1.metadata.map Prod.fst =
      ["server_id", "server_name", "execution_time"] ∧
    (call_tool 5 5 1 none (fun _ => Except.error "boom") "alice" "a"
        mgrA).1.metadata.map Prod.fst = ["server_id"] := by
  decide

/-- C7 (amended): on invocation success the raw result is wrapped in a
success response with metadata `{server_id, server_name, execution_time}`;
on invocation error the error message is wrapped in a failure response
whose metadata carries only `server_id` (no provider name, no
timestamp). -/
theorem call_tool_metadata_amended (maxConn ttl now : Nat)
    (fetch : Option ServerData) (invoke : Nat → Except String String)
    (user_id server_id : String) (m : ManagerState) (sc : ServerData)
    (c2 : List (String × ServerData)) (l2 : Nat) (c : Nat) (p1 : PoolState)
    (hg : get_server_config ttl now fetch server_id m.server_cache
        m.last_cache_update = (some sc, c2, l2))
    (hacc : user_has_access m.user_servers user_id server_id = true)
    (hgc : get_connection maxConn server_id sc.url sc.config m.pool =
        (Except.ok c, p1)) :
    (∀ res, execute_tool invoke c = Except.ok res →
       (call_tool maxConn ttl now fetch invoke user_id server_id m).1 =
         { success := true, result := some res,
           metadata := [("server_id", some server_id),
                        ("server_name", sc.name),
                        ("execution_time", some (toString now))] }) ∧
    (∀ e, execute_tool invoke c = Except.error e →
       (call_tool maxConn ttl now fetch invoke user_id server_id m).1 =
         { success := false, error := some e,
           metadata := [("server_id", some server_id)] }) := by
  constructor
  · intro res hex
    rw [call_tool_invoke_ok maxConn ttl now fetch invoke user_id server_id
      m sc c2 l2 c p1 res hg hacc hgc hex]
  · intro e hex
    rw [call_tool_invoke_error maxConn ttl now fetch invoke user_id
      server_id m sc c2 l2 c p1 e hg hacc hgc hex]

/-- C7 witness: the amended metadata shapes at a concrete successful and a
concrete failing invocation. -/
theorem call_tool_metadata_amended_witness :
    (call_tool 5 5 1 none (fun _ => Except.ok "r") "alice" "a" mgrA).1 =
      { success := true, result := some "r",
        metadata := [("server_id", some "a"), ("server_name", some "A"),
                     ("execution_time", some (toString 1))] } ∧
    (call_tool 5 5 1 none (fun _ => Except.error "boom") "alice" "a"
        mgrA).1 =
      { success := false,
        error := some ("Tool execution failed: " ++ "boom"),
        metadata := [("server_id", some "a")] } :=
  ⟨(call_tool_metadata_amended 5 5 1 none (fun _ => Except.ok "r") "alice"
      "a" mgrA srvA [("a", srvA)] 0 0
      { pool := [], active := [0], server_config := some ("u", ""),
        next_conn := 1 }
      (by decide) (by decide) (by decide)).1 "r" (by decide),
   (call_tool_metadata_amended 5 5 1 none (fun _ => Except.error "boom")
      "alice" "a" mgrA srvA [("a", srvA)] 0 0
      { pool := [], active := [0], server_config := some ("u", ""),
        next_conn := 1 }
      (by decide) (by decide) (by decide)).2
      ("Tool execution failed: " ++ "boom") (by decide)⟩

lemma get_connection_fst_pop (maxConn : Nat) (sid url cfg : String)
    (s : PoolState) (d : Nat) (rest : List Nat) (h : s.pool = d :: rest) :
    (get_connection maxConn sid url cfg s).1 = Except.ok d := by
  simp [get_connection, h]

/-- C8 counterexample: a connection whose invocation raises a
transport-level error is placed back on the idle list by the `finally`
release (here connection `0` after the failing call), and the next acquire
hands out that same broken connection — it is not evicted. -/
theorem broken_connection_not_evicted_cex :
    (call_tool 5 5 1 none (fun _ => Except.error "connection reset")
        "alice" "a" mgrA).1.success = false ∧
    (call_tool 5 5 1 none (fun _ => Except.error "connection reset")
        "alice" "a" mgrA).2.1.pool.pool = [0] ∧
    (get_connection 5 "a" "u" ""
        (call_tool 5 5 1 none (fun _ => Except.error "connection reset")
          "alice" "a" mgrA).2.1.pool).1 = Except.ok 0 := by
  decide

/-- C8 (amended): a pooled connection whose connect/invoke step raises is
*returned to the provider's idle list* by the unconditional `finally`
release, and is available for reuse: the next acquire for that provider
returns the same connection.  The pool has no eviction path for broken
connections (connections are discarded only by `close_all_connections`). -/
theorem broken_connection_reuse (maxConn ttl now : Nat)
    (fetch : Option ServerData) (invoke : Nat → Except String String)
    (user_id server_id url2 cfg2 : String) (m : ManagerState)
    (sc : ServerData) (c2 : List (String × ServerData)) (l2 : Nat)
    (c : Nat) (p1 : PoolState) (e : String) (hI : PoolInv m.pool)
    (hg : get_server_config ttl now fetch server_id m.server_cache
        m.last_cache_update = (some sc, c2, l2))
    (hacc : user_has_access m.user_servers user_id server_id = true)
    (hgc : get_connection maxConn server_id sc.url sc.config m.pool =
        (Except.ok c, p1))
    (hex : execute_tool invoke c = Except.error e) :
    (call_tool maxConn ttl now fetch invoke user_id server_id
        m).2.1.pool.pool = c :: p1.pool ∧
    (get_connection maxConn server_id url2 cfg2
        (call_tool maxConn ttl now fetch invoke user_id server_id
          m).2.1.pool).1 = Except.ok c := by
  have hrel := get_connection_ok_release maxConn server_id sc.url sc.config
    m.pool c p1 hI hgc
  rw [call_tool_invoke_error maxConn ttl now fetch invoke user_id server_id
    m sc c2 l2 c p1 e hg hacc hgc hex]
  exact ⟨hrel.2,
    get_connection_fst_pop maxConn server_id url2 cfg2 _ c p1.pool hrel.2⟩

/-- C8 witness: a concrete failing invocation returns connection `0` to the
idle list, and the immediately following acquire hands it out again. -/
theorem broken_connection_reuse_witness :
    (call_tool 5 5 1 none (fun _ => Except.error "connection reset")
        "alice" "a" mgrA).2.1.pool.pool = [0] ∧
    (get_connection 5 "a" "u" ""
        (call_tool 5 5 1 none (fun _ => Except.error "connection reset")
          "alice" "a" mgrA).2.1.pool).1 = Except.ok 0 :=
  broken_connection_reuse 5 5 1 none
    (fun _ => Except.error "connection reset") "alice" "a" "u" "" mgrA
    srvA [("a", srvA)] 0 0
    { pool := [], active := [0], server_config := some ("u", ""),
      next_conn := 1 }
    ("Tool execution failed: " ++ "connection reset")
    (by decide) (by decide) (by decide) (by decide) (by decide)

/-- C9 counterexample: a 2xx response that is not exactly 200 — here 204 —
is mapped to `unhealthy` with the status code, not to `healthy` as the
claim states for every successful (2xx) response. -/
theorem health_check_2xx_cex :
    ((200 : Nat) ≤ 204 ∧ (204 : Nat) < 300) ∧
    health_check (some ("u", "")) (ProbeOutcome.response 204 1) =
      HealthStatus.unhealthy 204 := by
  decide

/-- C9 (amended): `health_check` probes the provider's `/health` endpoint
with the fixed 5-second timeout and maps the outcome as follows: a response
with status exactly 200 to `healthy` with the observed latency; a response
with any other status code — including other 2xx codes — to `unhealthy`
with the code attached; and a network-level fault to `error` with the
exception text. -/
theorem health_check_spec_amended (url : String) (cfg : String × String)
    (status elapsed : Nat) (msg : String) :
    health_probe url = (url ++ "/health", 5) ∧
    health_check (some cfg) (ProbeOutcome.response 200 elapsed) =
      HealthStatus.healthy elapsed ∧
    (status ≠ 200 →
       health_check (some cfg) (ProbeOutcome.response status elapsed) =
         HealthStatus.unhealthy status) ∧
    health_check (some cfg) (ProbeOutcome.network_error msg) =
      HealthStatus.error msg := by
  refine ⟨rfl, rfl, ?_, rfl⟩
  intro hne
  simp [health_check, hne]

/-- C9 witness: the amended mapping at concrete probe outcomes, including
the non-200 branch at status 204. -/
theorem health_check_spec_amended_witness :
    ((204 : Nat) ≠ 200) ∧
    health_probe "u" = ("u" ++ "/health", 5) ∧
    health_check (some ("u", "")) (ProbeOutcome.response 200 3) =
      HealthStatus.healthy 3 ∧
    health_check (some ("u", "")) (ProbeOutcome.response 204 3) =
      HealthStatus.unhealthy 204 ∧
    health_check (some ("u", "")) (ProbeOutcome.network_error "timeout") =
      HealthStatus.error "timeout" := by
  have h := health_check_spec_amended "u" ("u", "") 204 3 "timeout"
  exact ⟨by decide, h.1, h.2.1, h.2.2.1 (by decide), h.2.2.2⟩
